import Mathlib

/-!
Shallow embedding of the SentinelFS write-path detection and protection
engine (src/sentinelfs.c) and proofs about its specification.

Modelling conventions:
  - C byte buffers (`const unsigned char *, size_t`) become `List (Fin 256)`.
  - C strings (paths, MIME labels) become `List Char`.
  - The opaque LibMagic classifier result (`magic_buffer`) is a parameter of
    type `Option (List Char)`: `none` models classifier failure (NULL), and
    `some m` models a returned media-type string `m`.
  - `double` entropy values become real numbers; `log2` becomes `Real.logb 2`.
  - The process-wide `stats` struct becomes an explicit `Stats` value that is
    threaded through and returned by the operations that mutate it.
  - OS interactions (stat, fopen, open, fread/fwrite, pwrite) are modelled by
    environment records carrying each call's outcome; the embedded functions
    consume those outcomes exactly where the C code consumes the corresponding
    return values.
-/

/-- Constant from `#define MAX_PATH 4096`. -/
def MAX_PATH : Nat := 4096

/-- Constant from `#define JIT_BACKUP_MAX_SIZE (50 * 1024 * 1024)`. -/
def JIT_BACKUP_MAX_SIZE : Nat := 50 * 1024 * 1024

/-- Constant from `#define ENTROPY_THRESHOLD 7.5`. -/
noncomputable def ENTROPY_THRESHOLD : ℝ := 7.5

/-- Linux errno value EIO, as used by `return -EIO` in `detect_ransomware`. -/
def eioCode : Int := 5

/-- Linux errno value ENOENT, reported by `open` on a missing file. -/
def enoentCode : Nat := 2

/-- Linux value of the `O_WRONLY` flag used by `open(full_path, O_WRONLY)`. -/
def O_WRONLY : Nat := 1

/-- Linux value of the `O_CREAT` flag (not used by `sentinelfs_write`). -/
def O_CREAT : Nat := 64

/-- Linux value of the `O_TRUNC` flag. -/
def O_TRUNC : Nat := 512

/-- Flags of the open performed by `creat(full_path, mode)` in
`sentinelfs_create`: POSIX defines `creat` as
`open(path, O_CREAT | O_WRONLY | O_TRUNC, mode)`. -/
def creat_open_flags : Nat := O_WRONLY ||| O_CREAT ||| O_TRUNC

/-- The process-wide counter struct `stats` of sentinelfs.c. -/
structure Stats where
  total_writes : Nat
  blocked_writes : Nat
  backups_created : Nat
deriving DecidableEq

/-- Embedding of `translate_path`: `snprintf(full_path, MAX_PATH, "%s%s",
storage_path, path)` concatenates the two strings and silently truncates the
result to at most `MAX_PATH - 1` characters (snprintf reserves one byte for
the terminating NUL). There is no error path: the C function returns `void`. -/
def translate_path (storage_path path : List Char) : List Char :=
  (storage_path ++ path).take (MAX_PATH - 1)

/-- The `safe_types` whitelist array of `is_whitelisted_file`. -/
def safe_types : List (List Char) :=
  [("text/").data,
   ("application/pdf").data,
   ("application/x-executable").data,
   ("application/x-sharedlib").data,
   ("application/x-shellscript").data]

/-- The shebang test of `is_whitelisted_file`:
`len >= 2 && buffer[0] == '#' && buffer[1] == '!'` (0x23 = 35, 0x21 = 33). -/
def has_shebang (buffer : List (Fin 256)) : Bool :=
  match buffer with
  | b0 :: b1 :: _ => b0 == (35 : Fin 256) && b1 == (33 : Fin 256)
  | _ => false

/-- Embedding of `is_whitelisted_file`. The C function first calls
`magic_buffer`; if that returns NULL (`mime = none`) it returns 0 at once,
before the whitelist loop and before the shebang test. Otherwise the loop
accepts `mime` when `strstr(mime, safe_types[i]) == mime`, i.e. when some
whitelist entry occurs at position 0 of `mime` - a starts-with test - and
finally falls back to the shebang test. -/
def is_whitelisted_file (mime : Option (List Char)) (buffer : List (Fin 256)) : Bool :=
  match mime with
  | none => false
  | some m =>
    if safe_types.any (fun s => s.isPrefixOf m) then true
    else has_shebang buffer

/-- Embedding of `calculate_entropy`: returns 0.0 for an empty buffer, and
otherwise accumulates `-= probability * log2(probability)` over the 256 byte
values with a positive occurrence count. -/
noncomputable def calculate_entropy (buffer : List (Fin 256)) : ℝ :=
  if buffer.length = 0 then 0
  else
    ∑ i : Fin 256,
      if 0 < buffer.count i then
        -(((buffer.count i : ℝ) / (buffer.length : ℝ)) *
          Real.logb 2 ((buffer.count i : ℝ) / (buffer.length : ℝ)))
      else 0

/-- The Shannon entropy formula exactly as the specification states it:
`H = - sum over i with count_i > 0 of (count_i / n) * log2(count_i / n)`,
where `n` is the buffer length. Stated from the spec's words, to be compared
with `calculate_entropy`, which is stated from the code. -/
noncomputable def shannon_entropy (buffer : List (Fin 256)) : ℝ :=
  -∑ i ∈ Finset.univ.filter (fun i : Fin 256 => 0 < buffer.count i),
      ((buffer.count i : ℝ) / (buffer.length : ℝ)) *
        Real.logb 2 ((buffer.count i : ℝ) / (buffer.length : ℝ))

/-- One iteration of the copy loop of `create_jit_backup`: `chunk` is the
byte block returned by `fread` (the loop exits when `fread` returns 0), and
`fwrite_ok` records whether the matching `fwrite` persisted the block. The C
code discards the result of every `fwrite`. -/
structure CopyStep where
  chunk : List (Fin 256)
  fwrite_ok : Bool
deriving DecidableEq

/-- Outcomes of the OS calls made by one run of `create_jit_backup`:
the `stat` result (`none` models failure), the success of the two `fopen`
calls, the copy-loop trace, and the actual source file contents. -/
structure BackupEnv where
  statSize : Option Nat
  srcOpen : Bool
  dstOpen : Bool
  steps : List CopyStep
  srcContent : List (Fin 256)
deriving DecidableEq

/-- Whether the copy loop transferred the full source contents to the backup
file: every `fread` block was persisted by its `fwrite` and the blocks
together are exactly the source contents. -/
def full_copy_succeeded (env : BackupEnv) : Bool :=
  ((env.steps.map CopyStep.chunk).flatten == env.srcContent)
    && env.steps.all (fun st => st.fwrite_ok)

/-- Embedding of `create_jit_backup`. Returns the C return value together
with the updated `backups_created` counter. Failure paths: `stat` failure
and either `fopen` failure return -1 (closing the already-open source stream
when the destination `fopen` fails). A file above the size cap is skipped
with return value 0. Otherwise the copy loop runs; its `fread`/`fwrite`
results (`env.steps`) are discarded by the code, the counter is incremented
and 0 is returned unconditionally. -/
def create_jit_backup (env : BackupEnv) (backups_created : Nat) : Int × Nat :=
  match env.statSize with
  | none => (-1, backups_created)
  | some sz =>
    if JIT_BACKUP_MAX_SIZE < sz then (0, backups_created)
    else if env.srcOpen = false then (-1, backups_created)
    else if env.dstOpen = false then (-1, backups_created)
    else (0, backups_created + 1)

/-- Embedding of `detect_ransomware`: increments `total_writes`, allows a
whitelisted buffer, and otherwise blocks (returning `-EIO` and incrementing
`blocked_writes`) exactly when the entropy strictly exceeds the threshold. -/
noncomputable def detect_ransomware (mime : Option (List Char))
    (buffer : List (Fin 256)) (s : Stats) : Int × Stats :=
  let s1 : Stats := { s with total_writes := s.total_writes + 1 }
  if is_whitelisted_file mime buffer then (0, s1)
  else if ENTROPY_THRESHOLD < calculate_entropy buffer then
    (-eioCode, { s1 with blocked_writes := s1.blocked_writes + 1 })
  else (0, s1)

/-- Modulus of the C type `unsigned long` of the `stats` counter fields: the
reference platform (Linux x86-64, LP64) makes `unsigned long` 64 bits wide,
and unsigned overflow wraps modulo 2^64. -/
def U64_MOD : Nat := 2 ^ 64

/-- Embedding of `detect_ransomware` with the counter increments performed
at the width of the C counters: `stats.total_writes++` and
`stats.blocked_writes++` on `unsigned long` wrap modulo 2^64. Identical to
`detect_ransomware` except that each increment is reduced mod `U64_MOD`;
this is the faithful model for claims that are sensitive to counter wrap. -/
noncomputable def detect_ransomware_u64 (mime : Option (List Char))
    (buffer : List (Fin 256)) (s : Stats) : Int × Stats :=
  let s1 : Stats := { s with total_writes := (s.total_writes + 1) % U64_MOD }
  if is_whitelisted_file mime buffer then (0, s1)
  else if ENTROPY_THRESHOLD < calculate_entropy buffer then
    (-eioCode, { s1 with blocked_writes := (s1.blocked_writes + 1) % U64_MOD })
  else (0, s1)

/-- Outcomes of the OS calls made by one run of `sentinelfs_write`: the
classifier result for the payload, the `stat` of the concrete path performed
for the offset-0 backup heuristic, the backup subsystem's environment, the
outcome of `open(full_path, O_WRONLY)` (`some e` models failure with errno
`e`), and the outcome of `pwrite` (bytes written, or an errno). -/
structure WriteEnv where
  mime : Option (List Char)
  statSize : Option Nat
  backup : BackupEnv
  openErrno : Option Nat
  pwriteResult : Except Nat Nat

/-- Observable outcome of `sentinelfs_write`: the FUSE return value, the
updated counters, the concrete path, the flags of the `open` call on the
concrete path when one was issued, and whether `pwrite` of the payload was
executed. -/
structure WriteResult where
  ret : Int
  stats : Stats
  concrete : List Char
  openedFlags : Option Nat
  wrote : Bool

/-- Embedding of `sentinelfs_write`: translate the path; on `offset == 0`,
if the concrete path stats to a non-empty file, run the JIT backup (its
return value is ignored - backup failure is advisory); run the detector; a
nonzero detector result is returned at once, with no open and no write;
otherwise open the concrete path with `O_WRONLY` (returning `-errno` on
failure) and `pwrite` the payload at the offset. -/
noncomputable def sentinelfs_write (env : WriteEnv) (storage_path path : List Char)
    (buf : List (Fin 256)) (offset : Nat) (s : Stats) : WriteResult :=
  let full_path := translate_path storage_path path
  let s1 : Stats :=
    if offset = 0 then
      match env.statSize with
      | some sz =>
        if 0 < sz then
          { s with backups_created := (create_jit_backup env.backup s.backups_created).2 }
        else s
      | none => s
    else s
  let dr := detect_ransomware env.mime buf s1
  if dr.1 ≠ 0 then
    { ret := dr.1, stats := dr.2, concrete := full_path,
      openedFlags := none, wrote := false }
  else
    match env.openErrno with
    | some e =>
      { ret := -(e : Int), stats := dr.2, concrete := full_path,
        openedFlags := some O_WRONLY, wrote := false }
    | none =>
      match env.pwriteResult with
      | Except.error e =>
        { ret := -(e : Int), stats := dr.2, concrete := full_path,
          openedFlags := some O_WRONLY, wrote := true }
      | Except.ok res =>
        { ret := (res : Int), stats := dr.2, concrete := full_path,
          openedFlags := some O_WRONLY, wrote := true }

/-- Observable outcome of `sentinelfs_create`: the FUSE return value and the
flags of the `open` performed by `creat`. -/
structure CreateResult where
  ret : Int
  createdFlags : Option Nat
deriving DecidableEq

/-- Embedding of `sentinelfs_create`: calls `creat(full_path, mode)`, which
opens with `O_CREAT | O_WRONLY | O_TRUNC`; on failure returns `-errno`. -/
def sentinelfs_create (creatErrno : Option Nat) : CreateResult :=
  match creatErrno with
  | some e => { ret := -(e : Int), createdFlags := some creat_open_flags }
  | none => { ret := 0, createdFlags := some creat_open_flags }

/-- A buffer holding each of the 256 byte values exactly once; its entropy
is exactly 8 bits per byte. -/
def buf256 : List (Fin 256) := List.finRange 256

/-- Concrete backup environment where both opens succeed but the single
`fwrite` of the copy loop fails. -/
def c4env : BackupEnv :=
  { statSize := some 1, srcOpen := true, dstOpen := true,
    steps := [{ chunk := [0], fwrite_ok := false }], srcContent := [0] }

/-- Concrete backup environment: file of exactly the size cap, opens fine. -/
def env8a : BackupEnv :=
  { statSize := some JIT_BACKUP_MAX_SIZE, srcOpen := true, dstOpen := true,
    steps := [], srcContent := [] }

/-- Concrete backup environment: file one byte above the size cap. -/
def env8b : BackupEnv :=
  { env8a with statSize := some (JIT_BACKUP_MAX_SIZE + 1) }

/-- An inert backup environment for write-path witnesses. -/
def benv0 : BackupEnv :=
  { statSize := none, srcOpen := false, dstOpen := false,
    steps := [], srcContent := [] }

/-- Concrete write environment for a blocked write: classifier failure and
an all-distinct (maximum-entropy) payload. -/
def env9 : WriteEnv :=
  { mime := none, statSize := none, backup := benv0,
    openErrno := none, pwriteResult := Except.ok 256 }

/-- Concrete write environment for a safe write to a missing file: text
payload, `open(O_WRONLY)` fails with ENOENT. -/
def env10 : WriteEnv :=
  { mime := some (("text/plain").data), statSize := none, backup := benv0,
    openErrno := some enoentCode, pwriteResult := Except.ok 0 }

/-- C1: counterexample. A two-byte buffer `0x23 0x21` presented while the
classifier fails (`magic_buffer` returns NULL) is NOT whitelisted: the C
code returns 0 on classifier failure before ever reaching the shebang test,
so the shebang rule is not evaluated independently of the classifier. -/
theorem c1_counterexample :
    is_whitelisted_file none [35, 33] = false
    ∧ ([35, 33] : List (Fin 256)).length = 2
    ∧ has_shebang [35, 33] = true := by
  decide

/-- C1 (amended): for every buffer of length at least 2 starting with the
bytes 0x23 0x21, `is_whitelisted_file` returns true whenever the classifier
returns some media-type string (whatever it is); when the classifier fails,
`is_whitelisted_file` returns false regardless of the buffer contents. -/
theorem c1_amended (m : List Char) (b0 b1 : Fin 256) (rest : List (Fin 256))
    (h0 : b0 = 35) (h1 : b1 = 33) :
    is_whitelisted_file (some m) (b0 :: b1 :: rest) = true
    ∧ ∀ b : List (Fin 256), is_whitelisted_file none b = false := by
  subst h0
  subst h1
  refine ⟨?_, fun b => rfl⟩
  have hred : is_whitelisted_file (some m) ((35 : Fin 256) :: (33 : Fin 256) :: rest)
      = (if safe_types.any (fun s => s.isPrefixOf m) then true
         else has_shebang ((35 : Fin 256) :: (33 : Fin 256) :: rest)) := rfl
  rw [hred]
  split
  · rfl
  · simp [has_shebang]

/-- C1: witness for the amended theorem at a concrete input. -/
theorem c1_witness :
    is_whitelisted_file (some (("application/octet-stream").data)) [35, 33] = true
    ∧ is_whitelisted_file none [35, 33] = false :=
  ⟨(c1_amended (("application/octet-stream").data) 35 33 [] rfl rfl).1,
   (c1_amended (("application/octet-stream").data) 35 33 [] rfl rfl).2 [35, 33]⟩

/-- C2: counterexample. The media-type string `application/pdfX` is not
equal to any whitelist entry, does not begin with `text/`, and the buffer
carries no shebang, yet `is_whitelisted_file` accepts it: the C loop tests
`strstr(mime, safe_types[i]) == mime`, a starts-with match, not equality. -/
theorem c2_counterexample :
    is_whitelisted_file (some (("application/pdfX").data)) [] = true
    ∧ ("application/pdfX").data ≠ ("application/pdf").data
    ∧ ("application/pdfX").data ≠ ("application/x-executable").data
    ∧ ("application/pdfX").data ≠ ("application/x-sharedlib").data
    ∧ ("application/pdfX").data ≠ ("application/x-shellscript").data
    ∧ (("text/").data.isPrefixOf (("application/pdfX").data)) = false
    ∧ has_shebang [] = false := by
  decide

/-- C2 (amended): every whitelist entry - `text/` and the four application
types alike - is matched by starts-with. When no entry is a prefix of the
media-type string and the buffer has no shebang, `is_whitelisted_file`
returns false. -/
theorem c2_amended (m : List Char) (b : List (Fin 256))
    (hm : ∀ s ∈ safe_types, s.isPrefixOf m = false)
    (hs : has_shebang b = false) :
    is_whitelisted_file (some m) b = false := by
  unfold is_whitelisted_file
  have hany : safe_types.any (fun s => s.isPrefixOf m) = false := by
    simp only [List.any_eq_false]
    intro s hsmem
    simp [hm s hsmem]
  simp [hany, hs]

/-- C2: witness for the amended theorem at a concrete input. -/
theorem c2_witness :
    (∀ s ∈ safe_types, s.isPrefixOf (("application/octet-stream").data) = false)
    ∧ has_shebang [0] = false
    ∧ is_whitelisted_file (some (("application/octet-stream").data)) [0] = false :=
  ⟨by decide, rfl, c2_amended (("application/octet-stream").data) [0] (by decide) rfl⟩

/-- C3: counterexample. For a 4000-char storage root and a 200-char virtual
path the concatenation exceeds `MAX_PATH`, yet `translate_path` does not
fail: it returns the concatenation silently truncated to `MAX_PATH - 1`
characters (the C function has a `void` return type and no error path). -/
theorem c3_counterexample :
    MAX_PATH < (List.replicate 4000 'a').length + (List.replicate 200 'b').length
    ∧ translate_path (List.replicate 4000 'a') (List.replicate 200 'b')
        = (List.replicate 4000 'a' ++ List.replicate 200 'b').take (MAX_PATH - 1)
    ∧ (translate_path (List.replicate 4000 'a') (List.replicate 200 'b')).length
        = MAX_PATH - 1 := by
  refine ⟨?_, rfl, ?_⟩
  · simp only [List.length_replicate, MAX_PATH]
    omega
  · simp only [translate_path, List.length_take, List.length_append,
      List.length_replicate, MAX_PATH, inf_eq_min]
    omega

/-- C3 (amended): when the concatenation of the storage root and the virtual
path reaches or exceeds `MAX_PATH - 1` characters, `translate_path` signals
no error and produces the concatenation truncated to exactly `MAX_PATH - 1`
characters. -/
theorem c3_amended (storage_path path : List Char)
    (h : MAX_PATH - 1 ≤ storage_path.length + path.length) :
    translate_path storage_path path = (storage_path ++ path).take (MAX_PATH - 1)
    ∧ (translate_path storage_path path).length = MAX_PATH - 1 := by
  refine ⟨rfl, ?_⟩
  simp only [translate_path, MAX_PATH, List.length_take, List.length_append,
    inf_eq_min] at h ⊢
  omega

/-- C3: witness for the amended theorem at a concrete input. -/
theorem c3_witness :
    MAX_PATH - 1 ≤ (List.replicate 4000 'a').length + (List.replicate 200 'b').length
    ∧ (translate_path (List.replicate 4000 'a') (List.replicate 200 'b')).length
        = MAX_PATH - 1 :=
  ⟨by simp only [List.length_replicate, MAX_PATH]; omega,
   (c3_amended (List.replicate 4000 'a') (List.replicate 200 'b')
      (by simp only [List.length_replicate, MAX_PATH]; omega)).2⟩

/-- C4: counterexample. In `c4env` both opens succeed but the only `fwrite`
of the copy loop fails, so the source contents were not successfully copied;
`create_jit_backup` nonetheless increments `backups_created` and returns 0
(success): the C loop discards every `fwrite` result and no error is
detected after the loop. -/
theorem c4_counterexample :
    full_copy_succeeded c4env = false
    ∧ create_jit_backup c4env 0 = (0, 1) := by
  decide

/-- C4 (amended): `create_jit_backup` returns an error only when `stat`
fails or one of the two `fopen` calls fails (releasing the already-opened
source descriptor in the latter case); whenever the size cap admits the file
and both opens succeed, it increments `backups_created` and returns success,
regardless of whether the reads and writes of the copy loop succeeded. -/
theorem c4_amended (env : BackupEnv) (n : Nat) :
    ((create_jit_backup env n).2 = n + 1 ↔
      env.srcOpen = true ∧ env.dstOpen = true ∧
        ∃ sz, env.statSize = some sz ∧ sz ≤ JIT_BACKUP_MAX_SIZE)
    ∧ ((create_jit_backup env n).1 = -1 ↔
      env.statSize = none ∨
        ∃ sz, env.statSize = some sz ∧ sz ≤ JIT_BACKUP_MAX_SIZE ∧
          (env.srcOpen = false ∨ env.dstOpen = false)) := by
  obtain ⟨st, so, dst, steps, content⟩ := env
  cases st with
  | none => simp [create_jit_backup]
  | some sz =>
    by_cases hsz : JIT_BACKUP_MAX_SIZE < sz
    · constructor
      · simp [create_jit_backup, hsz]
      · simp [create_jit_backup, hsz]
    · cases so <;> cases dst <;>
        simp [create_jit_backup, hsz] <;> omega

/-- C4: witness for the amended theorem at a concrete input. -/
theorem c4_witness : (create_jit_backup c4env 0).2 = 0 + 1 :=
  (c4_amended c4env 0).1.mpr ⟨rfl, rfl, 1, rfl, by decide⟩

/-- C8: a file of exactly `JIT_BACKUP_MAX_SIZE` bytes is not skipped - the
copy is performed and reported as success - while a file of one byte more is
skipped, returning success without touching the counter. -/
theorem c8_size_cap_boundary (env : BackupEnv) (n : Nat) :
    (env.statSize = some JIT_BACKUP_MAX_SIZE → env.srcOpen = true →
      env.dstOpen = true → create_jit_backup env n = (0, n + 1))
    ∧ (env.statSize = some (JIT_BACKUP_MAX_SIZE + 1) →
      create_jit_backup env n = (0, n)) := by
  constructor
  · intro hst hso hdst
    simp [create_jit_backup, hst, hso, hdst]
  · intro hst
    simp [create_jit_backup, hst]

/-- C8: witness at the two boundary sizes. -/
theorem c8_witness :
    env8a.statSize = some JIT_BACKUP_MAX_SIZE
    ∧ env8b.statSize = some (JIT_BACKUP_MAX_SIZE + 1)
    ∧ create_jit_backup env8a 0 = (0, 1)
    ∧ create_jit_backup env8b 0 = (0, 0) :=
  ⟨rfl, rfl, (c8_size_cap_boundary env8a 0).1 rfl rfl rfl,
   (c8_size_cap_boundary env8b 0).2 rfl⟩

/-- The occurrence counts of a byte buffer over the 256-slot frequency table
sum to the buffer length. -/
theorem sum_count_eq_length (b : List (Fin 256)) :
    ∑ i : Fin 256, b.count i = b.length := by
  induction b with
  | nil => simp
  | cons a l ih =>
    simp only [List.count_cons, List.length_cons, Finset.sum_add_distrib, ih]
    have h1 : (∑ i : Fin 256, if (a == i) = true then 1 else 0) = 1 := by
      simp [beq_iff_eq]
    omega

/-- Real-valued form of `sum_count_eq_length`. -/
theorem sum_count_cast (b : List (Fin 256)) :
    ∑ i : Fin 256, (b.count i : ℝ) = (b.length : ℝ) := by
  rw [← Nat.cast_sum, sum_count_eq_length]

/-- Per-term Gibbs-style bound: for a positive probability `q`,
`-q log2 q ≤ (1/256 - q)/ln 2 + 8 q`. Summed over the support this yields
the 8-bit entropy ceiling. -/
theorem neg_mul_logb_le (q : ℝ) (hq : 0 < q) :
    -(q * Real.logb 2 q) ≤ (1 / 256 - q) / Real.log 2 + 8 * q := by
  have hlog2 : (0:ℝ) < Real.log 2 := Real.log_pos (by norm_num)
  have h256 : Real.log 256 = 8 * Real.log 2 := by
    have h : (256:ℝ) = 2 ^ (8:ℕ) := by norm_num
    rw [h, Real.log_pow]
    push_cast
    ring
  have hx : (0:ℝ) < 1 / (256 * q) := by positivity
  have h1 : Real.log (1 / (256 * q)) ≤ 1 / (256 * q) - 1 :=
    Real.log_le_sub_one_of_pos hx
  have h2 : Real.log (1 / (256 * q)) = -(Real.log 256) - Real.log q := by
    rw [one_div, Real.log_inv, Real.log_mul (by norm_num) (ne_of_gt hq)]
    ring
  have h3 : -(Real.log q) ≤ 1 / (256 * q) - 1 + Real.log 256 := by
    rw [h2] at h1
    linarith
  have h4 : q * (-(Real.log q)) ≤ q * (1 / (256 * q) - 1 + Real.log 256) :=
    mul_le_mul_of_nonneg_left h3 (le_of_lt hq)
  have h5 : q * (1 / (256 * q) - 1 + Real.log 256)
      = 1 / 256 - q + q * (8 * Real.log 2) := by
    rw [h256]
    field_simp
    ring
  have h6 : -(q * Real.log q) ≤ 1 / 256 - q + q * (8 * Real.log 2) := by
    calc -(q * Real.log q) = q * (-(Real.log q)) := by ring
    _ ≤ q * (1 / (256 * q) - 1 + Real.log 256) := h4
    _ = 1 / 256 - q + q * (8 * Real.log 2) := h5
  have h7 : -(q * Real.logb 2 q) = -(q * Real.log q) / Real.log 2 := by
    rw [Real.logb]
    ring
  rw [h7, div_le_iff₀ hlog2]
  have h8 : ((1 / 256 - q) / Real.log 2 + 8 * q) * Real.log 2
      = 1 / 256 - q + q * (8 * Real.log 2) := by
    rw [add_mul, div_mul_cancel₀ _ (ne_of_gt hlog2)]
    ring
  rw [h8]
  exact h6

/-- The entropy of every buffer is nonnegative. -/
theorem calculate_entropy_nonneg (b : List (Fin 256)) : 0 ≤ calculate_entropy b := by
  unfold calculate_entropy
  split
  · exact le_refl 0
  next hb =>
    apply Finset.sum_nonneg
    intro i _
    split
    next hc =>
      have hn : (0:ℝ) < (b.length : ℝ) := by
        exact_mod_cast Nat.pos_of_ne_zero hb
      have hp0 : (0:ℝ) ≤ (b.count i : ℝ) / (b.length : ℝ) := by positivity
      have hp1 : (b.count i : ℝ) / (b.length : ℝ) ≤ 1 := by
        rw [div_le_one hn]
        exact_mod_cast List.count_le_length i b
      have hlb : Real.logb 2 ((b.count i : ℝ) / (b.length : ℝ)) ≤ 0 :=
        Real.logb_nonpos (by norm_num) hp0 hp1
      have h := mul_nonneg hp0 (neg_nonneg.mpr hlb)
      rw [mul_neg] at h
      exact h
    next => exact le_refl 0

/-- The entropy of every buffer is at most 8 bits per byte. -/
theorem calculate_entropy_le_eight (b : List (Fin 256)) : calculate_entropy b ≤ 8 := by
  unfold calculate_entropy
  split
  · norm_num
  next hb =>
    have hn : (0:ℝ) < (b.length : ℝ) := by
      exact_mod_cast Nat.pos_of_ne_zero hb
    have hlog2 : (0:ℝ) < Real.log 2 := Real.log_pos (by norm_num)
    rw [← Finset.sum_filter]
    set S := Finset.filter (fun i : Fin 256 => 0 < b.count i) Finset.univ with hS
    have hne : ∀ x ∈ Finset.univ, ((b.count x : ℝ)) ≠ 0 → 0 < b.count x := by
      intro x _ hx
      by_contra hc
      push_neg at hc
      have h0 : b.count x = 0 := Nat.le_zero.mp hc
      simp [h0] at hx
    have hsum_counts : ∑ i ∈ S, (b.count i : ℝ) = (b.length : ℝ) := by
      rw [hS, Finset.sum_filter_of_ne hne, sum_count_cast]
    have hsum_p : ∑ i ∈ S, (b.count i : ℝ) / (b.length : ℝ) = 1 := by
      rw [← Finset.sum_div, hsum_counts, div_self (ne_of_gt hn)]
    have hcard : (S.card : ℝ) ≤ 256 := by
      have h1 : S.card ≤ 256 := by
        have h2 : S.card ≤ Finset.univ.card := Finset.card_filter_le _ _
        have h3 : (Finset.univ : Finset (Fin 256)).card = 256 := by
          rw [Finset.card_univ, Fintype.card_fin]
        omega
      exact_mod_cast h1
    have hbound : ∀ i ∈ S,
        -(((b.count i : ℝ) / (b.length : ℝ)) *
            Real.logb 2 ((b.count i : ℝ) / (b.length : ℝ)))
          ≤ (1 / 256 - (b.count i : ℝ) / (b.length : ℝ)) / Real.log 2
            + 8 * ((b.count i : ℝ) / (b.length : ℝ)) := by
      intro i hi
      apply neg_mul_logb_le
      have hci : 0 < b.count i := by
        rw [hS] at hi
        simpa using (Finset.mem_filter.mp hi).2
      have hci' : (0:ℝ) < (b.count i : ℝ) := by exact_mod_cast hci
      positivity
    have hstep : ∑ i ∈ S, ((1 / 256 - (b.count i : ℝ) / (b.length : ℝ)) / Real.log 2
        + 8 * ((b.count i : ℝ) / (b.length : ℝ)))
        = ((S.card : ℝ) * (1 / 256) - 1) / Real.log 2 + 8 := by
      rw [Finset.sum_add_distrib, ← Finset.sum_div, ← Finset.mul_sum, hsum_p,
        Finset.sum_sub_distrib, Finset.sum_const, hsum_p, nsmul_eq_mul]
      norm_num
    refine le_trans (Finset.sum_le_sum hbound) ?_
    rw [hstep]
    have hnum : (S.card : ℝ) * (1 / 256) - 1 ≤ 0 := by nlinarith
    have hdiv : ((S.card : ℝ) * (1 / 256) - 1) / Real.log 2 ≤ 0 := by
      rw [div_nonpos_iff]
      right
      exact ⟨hnum, le_of_lt hlog2⟩
    linarith

/-- The entropy of the empty buffer is zero. -/
theorem calculate_entropy_nil : calculate_entropy [] = 0 := by
  unfold calculate_entropy
  simp

/-- The entropy of a buffer holding a single distinct byte value is zero. -/
theorem calculate_entropy_const (b : List (Fin 256)) (c : Fin 256)
    (h : ∀ x ∈ b, x = c) : calculate_entropy b = 0 := by
  unfold calculate_entropy
  split
  · rfl
  next hb =>
    apply Finset.sum_eq_zero
    intro i _
    by_cases hic : i = c
    · subst hic
      split
      next hcount =>
        have hcl : b.count i = b.length := by
          rw [List.count_eq_length]
          intro x hx
          exact (h x hx).symm
        have hn1 : ((b.length : ℝ)) ≠ 0 := Nat.cast_ne_zero.mpr hb
        rw [hcl, div_self hn1, Real.logb_one]
        ring
      next => rfl
    · have h0 : b.count i = 0 := by
        rw [List.count_eq_zero]
        intro hmem
        exact hic (h i hmem)
      simp [h0]

/-- The code's entropy accumulation agrees with the specification's Shannon
entropy formula on every buffer. -/
theorem calculate_entropy_eq_shannon (b : List (Fin 256)) :
    calculate_entropy b = shannon_entropy b := by
  unfold calculate_entropy shannon_entropy
  split
  next hb =>
    have hb0 : b = [] := List.length_eq_zero.mp hb
    subst hb0
    simp
  next hb =>
    rw [Finset.sum_filter, ← Finset.sum_neg_distrib]
    apply Finset.sum_congr rfl
    intro i _
    by_cases hc : 0 < b.count i
    · simp [hc]
    · simp [hc]

/-- C6: for every byte buffer, the entropy lies in [0, 8]; it is 0 for the
empty buffer and for buffers with a single distinct byte value; and it
always equals the Shannon entropy formula of the specification. -/
theorem c6_entropy_props (b : List (Fin 256)) :
    0 ≤ calculate_entropy b ∧ calculate_entropy b ≤ 8
    ∧ (b = [] → calculate_entropy b = 0)
    ∧ (∀ c : Fin 256, (∀ x ∈ b, x = c) → calculate_entropy b = 0)
    ∧ calculate_entropy b = shannon_entropy b :=
  ⟨calculate_entropy_nonneg b, calculate_entropy_le_eight b,
   fun hb => by subst hb; exact calculate_entropy_nil,
   fun c hc => calculate_entropy_const b c hc,
   calculate_entropy_eq_shannon b⟩

/-- C6: witness at a concrete single-valued buffer. -/
theorem c6_witness :
    (∀ x ∈ ([0, 0] : List (Fin 256)), x = 0) ∧ calculate_entropy [0, 0] = 0 :=
  ⟨by simp, (c6_entropy_props [0, 0]).2.2.2.1 0 (by simp)⟩

/-- Each byte value occurs exactly once in `buf256`. -/
theorem count_buf256 (i : Fin 256) : buf256.count i = 1 :=
  List.count_eq_one_of_mem (List.nodup_finRange 256) (List.mem_finRange i)

/-- The length of `buf256` is 256. -/
theorem length_buf256 : buf256.length = 256 := by
  simp [buf256]

/-- The all-distinct buffer `buf256` has entropy exactly 8. -/
theorem calculate_entropy_buf256 : calculate_entropy buf256 = 8 := by
  unfold calculate_entropy
  rw [if_neg (by rw [length_buf256]; norm_num)]
  have hterm : ∀ i : Fin 256,
      (if 0 < buf256.count i then
        -(((buf256.count i : ℝ) / (buf256.length : ℝ)) *
          Real.logb 2 ((buf256.count i : ℝ) / (buf256.length : ℝ)))
      else 0) = 8 / 256 := by
    intro i
    rw [count_buf256, length_buf256, if_pos (by norm_num)]
    have h1 : (((1:ℕ) : ℝ)) / (((256:ℕ) : ℝ)) = ((256:ℝ))⁻¹ := by
      push_cast
      norm_num
    rw [h1, Real.logb_inv]
    have h2 : Real.logb 2 256 = 8 := by
      have h3 : (256:ℝ) = 2 ^ (8:ℕ) := by norm_num
      rw [h3, Real.logb_pow, Real.logb_self_eq_one (by norm_num)]
      norm_num
    rw [h2]
    norm_num
  rw [Finset.sum_congr rfl (fun i _ => hterm i), Finset.sum_const]
  simp only [Finset.card_univ, Fintype.card_fin, nsmul_eq_mul]
  norm_num

/-- Evaluation of `detect_ransomware` on a blocked write: not whitelisted
and entropy strictly above the threshold. -/
theorem detect_blocked_eq (m : Option (List Char)) (b : List (Fin 256)) (s : Stats)
    (hw : is_whitelisted_file m b = false)
    (he : ENTROPY_THRESHOLD < calculate_entropy b) :
    detect_ransomware m b s =
      (-eioCode,
       { total_writes := s.total_writes + 1,
         blocked_writes := s.blocked_writes + 1,
         backups_created := s.backups_created }) := by
  unfold detect_ransomware
  simp [hw, he]

/-- Evaluation of `detect_ransomware` on an allowed write: whitelisted, or
entropy at most the threshold. -/
theorem detect_allowed_eq (m : Option (List Char)) (b : List (Fin 256)) (s : Stats)
    (h : is_whitelisted_file m b = true ∨ calculate_entropy b ≤ ENTROPY_THRESHOLD) :
    detect_ransomware m b s =
      (0,
       { total_writes := s.total_writes + 1,
         blocked_writes := s.blocked_writes,
         backups_created := s.backups_created }) := by
  unfold detect_ransomware
  rcases h with hw | he
  · simp [hw]
  · rcases hwb : is_whitelisted_file m b with _ | _
    · have hnl : ¬ (ENTROPY_THRESHOLD < calculate_entropy b) := not_lt.mpr he
      simp [hwb, hnl]
    · simp [hwb]

/-- C5: the gate blocks - returns `-EIO` and increments `blocked_writes` -
if and only if the buffer is not whitelisted and its entropy strictly
exceeds 7.5; a buffer with entropy at most 7.5 is never blocked, a
whitelisted buffer is never blocked regardless of entropy, and the empty
write is always allowed. -/
theorem c5_gate_blocks_iff (m : Option (List Char)) (b : List (Fin 256)) (s : Stats) :
    ((detect_ransomware m b s).1 ≠ 0 ↔
      is_whitelisted_file m b = false ∧ ENTROPY_THRESHOLD < calculate_entropy b)
    ∧ ((detect_ransomware m b s).2.blocked_writes = s.blocked_writes + 1 ↔
      is_whitelisted_file m b = false ∧ ENTROPY_THRESHOLD < calculate_entropy b)
    ∧ (is_whitelisted_file m b = false ∧ ENTROPY_THRESHOLD < calculate_entropy b →
      (detect_ransomware m b s).1 = -eioCode)
    ∧ (calculate_entropy b ≤ ENTROPY_THRESHOLD → (detect_ransomware m b s).1 = 0)
    ∧ (is_whitelisted_file m b = true → (detect_ransomware m b s).1 = 0)
    ∧ (detect_ransomware m [] s).1 = 0 := by
  have hnil : calculate_entropy [] ≤ ENTROPY_THRESHOLD := by
    rw [calculate_entropy_nil]
    unfold ENTROPY_THRESHOLD
    norm_num
  have hempty : (detect_ransomware m [] s).1 = 0 := by
    rw [detect_allowed_eq m [] s (Or.inr hnil)]
  by_cases hw : is_whitelisted_file m b = true
  · have hd := detect_allowed_eq m b s (Or.inl hw)
    refine ⟨?_, ?_, ?_, ?_, ?_, hempty⟩
    · rw [hd]
      simp [hw]
    · rw [hd]
      simp [hw]
    · rintro ⟨hcontra, _⟩
      rw [hw] at hcontra
      cases hcontra
    · intro _
      rw [hd]
    · intro _
      rw [hd]
  · rw [Bool.not_eq_true] at hw
    by_cases he : ENTROPY_THRESHOLD < calculate_entropy b
    · have hd := detect_blocked_eq m b s hw he
      refine ⟨?_, ?_, ?_, ?_, ?_, hempty⟩
      · rw [hd]
        simp [eioCode, hw, he]
      · rw [hd]
        simp [hw, he]
      · intro _
        rw [hd]
      · intro hle
        exact absurd he (not_lt.mpr hle)
      · intro ht
        rw [ht] at hw
        cases hw
    · have hd := detect_allowed_eq m b s (Or.inr (not_lt.mp he))
      refine ⟨?_, ?_, ?_, ?_, ?_, hempty⟩
      · rw [hd]
        simp [hw, he]
      · rw [hd]
        simp [hw, he]
      · rintro ⟨_, hcontra⟩
        exact absurd hcontra he
      · intro _
        rw [hd]
      · intro _
        rw [hd]

/-- C5: witness at the empty write. -/
theorem c5_witness :
    calculate_entropy [] ≤ ENTROPY_THRESHOLD
    ∧ (detect_ransomware none []
        { total_writes := 0, blocked_writes := 0, backups_created := 0 }).1 = 0 := by
  have h : calculate_entropy ([] : List (Fin 256)) ≤ ENTROPY_THRESHOLD := by
    rw [calculate_entropy_nil]
    unfold ENTROPY_THRESHOLD
    norm_num
  exact ⟨h, (c5_gate_blocks_iff none []
    { total_writes := 0, blocked_writes := 0, backups_created := 0 }).2.2.2.1 h⟩

/-- C7: counterexample. At the wrap point of the 64-bit counters the
invariant is not preserved: from the state `total_writes = 2^64 - 1`,
`blocked_writes = 1` - which satisfies `blocked_writes ≤ total_writes` - an
allowed write (empty buffer, failing classifier) wraps `total_writes` to 0
while `blocked_writes` stays 1, so `blocked_writes ≤ total_writes` fails
after the operation. -/
theorem c7_counterexample :
    (1 : Nat) ≤ U64_MOD - 1
    ∧ (detect_ransomware_u64 none []
        { total_writes := U64_MOD - 1, blocked_writes := 1,
          backups_created := 0 }).2.total_writes = 0
    ∧ (detect_ransomware_u64 none []
        { total_writes := U64_MOD - 1, blocked_writes := 1,
          backups_created := 0 }).2.blocked_writes = 1
    ∧ ¬ ((detect_ransomware_u64 none []
        { total_writes := U64_MOD - 1, blocked_writes := 1,
          backups_created := 0 }).2.blocked_writes
      ≤ (detect_ransomware_u64 none []
        { total_writes := U64_MOD - 1, blocked_writes := 1,
          backups_created := 0 }).2.total_writes) := by
  have hnl : ¬ (ENTROPY_THRESHOLD < calculate_entropy []) := by
    rw [calculate_entropy_nil]
    unfold ENTROPY_THRESHOLD
    norm_num
  have hd : detect_ransomware_u64 none []
      { total_writes := U64_MOD - 1, blocked_writes := 1, backups_created := 0 }
      = (0, { total_writes := (U64_MOD - 1 + 1) % U64_MOD, blocked_writes := 1,
              backups_created := 0 }) := by
    unfold detect_ransomware_u64
    simp [is_whitelisted_file, hnl]
  have hmod : (U64_MOD - 1 + 1) % U64_MOD = 0 := by
    norm_num [U64_MOD]
  refine ⟨by norm_num [U64_MOD], ?_, ?_, ?_⟩ <;> rw [hd] <;> simp [hmod]

/-- C7 (amended): for every write on which the 64-bit `total_writes` counter
does not wrap (`total_writes + 1 < 2^64`), the invariant
`blocked_writes ≤ total_writes` holds after whenever it held before;
`total_writes` is incremented modulo 2^64 on every write and
`blocked_writes` is incremented at most once, only after `total_writes`. At
the wrap point `total_writes = 2^64 - 1` the invariant can fail. -/
theorem c7_amended (m : Option (List Char)) (b : List (Fin 256)) (s : Stats)
    (h : s.blocked_writes ≤ s.total_writes)
    (hnw : s.total_writes + 1 < U64_MOD) :
    (detect_ransomware_u64 m b s).2.blocked_writes
      ≤ (detect_ransomware_u64 m b s).2.total_writes
    ∧ (detect_ransomware_u64 m b s).2.total_writes = (s.total_writes + 1) % U64_MOD
    ∧ ((detect_ransomware_u64 m b s).2.blocked_writes = s.blocked_writes
       ∨ (detect_ransomware_u64 m b s).2.blocked_writes
         = (s.blocked_writes + 1) % U64_MOD) := by
  have h64 : U64_MOD = 18446744073709551616 := by norm_num [U64_MOD]
  rw [h64] at hnw ⊢
  unfold detect_ransomware_u64
  rw [h64]
  split_ifs with hw he <;> simp <;> omega

/-- C7: witness for the amended theorem at the zeroed counter state. -/
theorem c7_witness :
    (0:Nat) ≤ 0
    ∧ 0 + 1 < U64_MOD
    ∧ (detect_ransomware_u64 none []
        { total_writes := 0, blocked_writes := 0, backups_created := 0 }).2.blocked_writes
      ≤ (detect_ransomware_u64 none []
        { total_writes := 0, blocked_writes := 0, backups_created := 0 }).2.total_writes :=
  ⟨Nat.le_refl 0, by norm_num [U64_MOD],
   (c7_amended none []
     { total_writes := 0, blocked_writes := 0, backups_created := 0 }
     (Nat.le_refl 0) (by norm_num [U64_MOD])).1⟩

/-- C9: a write the gate blocks returns `-EIO` to the client, and the write
path performs no `open` and no `pwrite` of the payload on the concrete path
after the blocking decision: the target file is left untouched. -/
theorem c9_blocked_write_no_write (env : WriteEnv) (storage_path path : List Char)
    (buf : List (Fin 256)) (offset : Nat) (s : Stats)
    (hw : is_whitelisted_file env.mime buf = false)
    (he : ENTROPY_THRESHOLD < calculate_entropy buf) :
    (sentinelfs_write env storage_path path buf offset s).ret = -eioCode
    ∧ (sentinelfs_write env storage_path path buf offset s).openedFlags = none
    ∧ (sentinelfs_write env storage_path path buf offset s).wrote = false := by
  have hd : ∀ st : Stats, detect_ransomware env.mime buf st
      = (-eioCode,
         { total_writes := st.total_writes + 1,
           blocked_writes := st.blocked_writes + 1,
           backups_created := st.backups_created }) :=
    fun st => detect_blocked_eq env.mime buf st hw he
  refine ⟨?_, ?_, ?_⟩ <;>
    · simp only [sentinelfs_write, hd]
      norm_num [eioCode]

/-- C9: witness at a concrete maximum-entropy payload with failing
classifier. -/
theorem c9_witness :
    is_whitelisted_file env9.mime buf256 = false
    ∧ ENTROPY_THRESHOLD < calculate_entropy buf256
    ∧ (sentinelfs_write env9 [] [] buf256 0
        { total_writes := 0, blocked_writes := 0, backups_created := 0 }).ret = -eioCode
    ∧ (sentinelfs_write env9 [] [] buf256 0
        { total_writes := 0, blocked_writes := 0, backups_created := 0 }).wrote = false := by
  have hw : is_whitelisted_file env9.mime buf256 = false := rfl
  have he : ENTROPY_THRESHOLD < calculate_entropy buf256 := by
    rw [calculate_entropy_buf256]
    unfold ENTROPY_THRESHOLD
    norm_num
  exact ⟨hw, he,
    (c9_blocked_write_no_write env9 [] [] buf256 0
      { total_writes := 0, blocked_writes := 0, backups_created := 0 } hw he).1,
    (c9_blocked_write_no_write env9 [] [] buf256 0
      { total_writes := 0, blocked_writes := 0, backups_created := 0 } hw he).2.2⟩

/-- C10: a write that passes the gate but whose concrete path names no
existing file returns `-ENOENT` and writes nothing; the write path opens
with `O_WRONLY` only - no `O_CREAT` bit - so the write operation itself
never creates its target; creation happens only through `sentinelfs_create`,
whose `creat` call carries `O_CREAT`. -/
theorem c10_missing_file_write (env : WriteEnv) (storage_path path : List Char)
    (buf : List (Fin 256)) (offset : Nat) (s : Stats)
    (hpass : is_whitelisted_file env.mime buf = true
      ∨ calculate_entropy buf ≤ ENTROPY_THRESHOLD)
    (hopen : env.openErrno = some enoentCode) :
    (sentinelfs_write env storage_path path buf offset s).ret = -(enoentCode : Int)
    ∧ (sentinelfs_write env storage_path path buf offset s).wrote = false
    ∧ (sentinelfs_write env storage_path path buf offset s).openedFlags = some O_WRONLY
    ∧ O_WRONLY &&& O_CREAT = 0
    ∧ creat_open_flags &&& O_CREAT ≠ 0
    ∧ (∀ e, (sentinelfs_create e).createdFlags = some creat_open_flags) := by
  have hd : ∀ st : Stats, detect_ransomware env.mime buf st
      = (0,
         { total_writes := st.total_writes + 1,
           blocked_writes := st.blocked_writes,
           backups_created := st.backups_created }) :=
    fun st => detect_allowed_eq env.mime buf st hpass
  refine ⟨?_, ?_, ?_, by decide, by decide, ?_⟩
  · simp only [sentinelfs_write, hd, hopen]
    norm_num
  · simp only [sentinelfs_write, hd, hopen]
    norm_num
  · simp only [sentinelfs_write, hd, hopen]
    norm_num
  · intro e
    cases e <;> rfl

/-- C10: witness at a concrete text payload and an ENOENT open failure. -/
theorem c10_witness :
    is_whitelisted_file env10.mime [72] = true
    ∧ env10.openErrno = some enoentCode
    ∧ (sentinelfs_write env10 [] [] [72] 0
        { total_writes := 0, blocked_writes := 0, backups_created := 0 }).ret
      = -(enoentCode : Int) := by
  have hw : is_whitelisted_file env10.mime [72] = true := by decide
  exact ⟨hw, rfl,
    (c10_missing_file_write env10 [] [] [72] 0
      { total_writes := 0, blocked_writes := 0, backups_created := 0 }
      (Or.inl hw) rfl).1⟩
